import Mathlib

/-
Verification development for the `little_logger` crate (src/lib.rs,
module `log`).  The Rust code is shallowly embedded: external effects
are made explicit parameters —

  * the clock/timestamp formatter `Local::now().format(pattern)` becomes
    a parameter `now_format : String → String` (pattern to rendered text);
  * the filesystem becomes `FileSystem : String → Bool` (does the named
    file exist and is it openable);
  * path metadata queried by `set_dest_dir` becomes
    `String → PathInfo`;
  * the outcome of each `write_all` call becomes an oracle
    `fails : Dest → Bool`, and a logging call returns the list of write
    attempts it performed together with the error (if any) it reports to
    its caller.

Rust panics (`assert!`, `panic!`, `Result::expect`) abort the process;
they are embedded as the `panicked` alternative of `PanicOr`, distinct
from an error value returned to the caller.
-/

namespace LittleLogger

/-- Result of a Rust computation that can abort the process with a panic
(`assert!`, `panic!`, `Result::expect`).  A `panicked` outcome is an
abort, not an error value handed back to the caller. -/
inductive PanicOr (α : Type) where
  | panicked (msg : String) : PanicOr α
  | ok (a : α) : PanicOr α
deriving DecidableEq

/-- Map over a non-panicking result. -/
def PanicOr.map {α β : Type} (f : α → β) : PanicOr α → PanicOr β
  | .panicked m => .panicked m
  | .ok a => .ok (f a)

/-- Sequence two possibly-panicking computations. -/
def PanicOr.bind {α β : Type} : PanicOr α → (α → PanicOr β) → PanicOr β
  | .panicked m, _ => .panicked m
  | .ok a, f => f a

/-- Abstract filesystem: which file names currently exist (and can be
opened for writing). -/
def FileSystem : Type := String → Bool

/-- An open file handle, recording the name it was opened under and the
open flags that mattered (`std::fs::File`). -/
structure File where
  name : String
  opened_append : Bool
  truncated : Bool
deriving DecidableEq

/-- Open flags, mirroring `std::fs::OpenOptions` defaults (every flag
false unless set). -/
structure OpenOptions where
  append : Bool := false
  create : Bool := false
  truncate : Bool := false
deriving DecidableEq

/-- Semantics of `OpenOptions::open`: succeeds when the file exists, or
when `create` was requested; otherwise the OS reports an error. -/
def OpenOptions.open_file (o : OpenOptions) (fs : FileSystem) (file_name : String) :
    Except String File :=
  if fs file_name || o.create then
    .ok { name := file_name, opened_append := o.append, truncated := o.truncate }
  else
    .error "No such file or directory"

/-- `LogFile` wraps the open file handle (field `out: File`). -/
structure LogFile where
  out : File
deriving DecidableEq

/-- `LogFile::new`: `OpenOptions::new().append(true).open(file_name)`
followed by `.expect("Failed to open log file")` — note `create` is
never set, and a failed open panics. -/
def LogFile.new (fs : FileSystem) (file_name : String) : PanicOr LogFile :=
  match OpenOptions.open_file { append := true } fs file_name with
  | .ok f => .ok { out := f }
  | .error _ => .panicked "Failed to open log file"

/-- `LogConsl` wraps the acquired `StdoutLock`; it carries no data
relevant to the embedding. -/
structure LogConsl where
deriving DecidableEq

/-- `LogConsl::new`: locks stdout; never fails. -/
def LogConsl.new : LogConsl := {}

/-- The destination enum.  In the source, `Both`'s FIRST component has
type `Box<LogConsl>` (the console) and its SECOND has type
`Box<LogFile>` (the file); the field order here follows the source. -/
inductive LogType where
  | file (f : LogFile)
  | console (c : LogConsl)
  | both (c : LogConsl) (f : LogFile)
deriving DecidableEq

/-- Name of the file an owned file sink was opened under, if any. -/
def LogType.opened_file_name : LogType → Option String
  | .file f => some f.out.name
  | .console _ => none
  | .both _ f => some f.out.name

/-- The `LoggerOpts` configuration struct. -/
structure LoggerOpts where
  log_file_name : String
  log_type : LogType
  log_label : String
  dt_format : String
  use_dt : Bool
  use_label : Bool
deriving DecidableEq

/-- `LoggerOpts::new`: the defaults.  Note it already opens
`LogFile::new("llog.txt")` (which panics when the file cannot be
opened). -/
def LoggerOpts.new (fs : FileSystem) : PanicOr LoggerOpts :=
  (LogFile.new fs "llog.txt").map fun f =>
    { log_file_name := "llog.txt"
      log_type := LogType.file f
      log_label := "LLOG"
      dt_format := "%Y-%m-%d %H:%M:%S"
      use_dt := true
      use_label := true }

/-- Rust `str::to_uppercase`, character by character (agrees with the
Rust function on ASCII input, which is all the destination strings the
match below can recognise). -/
def to_uppercase (s : String) : String := String.mk (s.data.map Char.toUpper)

/-- `LoggerOpts::set_log_type`: matches on `log_type.to_uppercase()`.
The file sink it opens is hardwired to the name "llog.txt" (it does not
consult `self.log_file_name`), and an unrecognised string panics. -/
def LoggerOpts.set_log_type (self : LoggerOpts) (fs : FileSystem) (log_type : String) :
    PanicOr LoggerOpts :=
  let u := to_uppercase log_type
  if u = "FILE" ∨ u = "FILEONLY" then
    (LogFile.new fs "llog.txt").map fun f => { self with log_type := LogType.file f }
  else if u = "CONSOLE" ∨ u = "CONSOLEONLY" then
    .ok { self with log_type := LogType.console LogConsl.new }
  else if u = "BOTH" then
    (LogFile.new fs "llog.txt").map fun f => { self with log_type := LogType.both LogConsl.new f }
  else
    .panicked "Invalid log type provided."

/-- Path metadata consulted by `set_dest_dir` (`Path::is_absolute`,
`Path::is_dir`, `Path::exists`). -/
structure PathInfo where
  is_absolute : Bool
  is_dir : Bool
  path_exists : Bool
deriving DecidableEq

/-- `LoggerOpts::set_dest_dir`: three `assert!`s (absolute, dir, exists,
in that order — each failure is a panic, i.e. a process abort), then
`set_current_dir(dest)` whose result the code discards (the embedding
assumes the OS call succeeds).  Returns the unchanged options together
with the working directory after the call. -/
def LoggerOpts.set_dest_dir (self : LoggerOpts) (path_info : String → PathInfo)
    (new_dest : String) : PanicOr (LoggerOpts × String) :=
  let dest := path_info new_dest
  if dest.is_absolute then
    if dest.is_dir then
      if dest.path_exists then
        .ok (self, new_dest)
      else .panicked "assertion failed: dest.exists()"
    else .panicked "assertion failed: dest.is_dir()"
  else .panicked "assertion failed: dest.is_absolute()"

/-- `LoggerOpts::set_logfile_name`: stores the new name (only the
string field; no sink is re-opened). -/
def LoggerOpts.set_logfile_name (self : LoggerOpts) (new_name : String) : LoggerOpts :=
  { self with log_file_name := new_name }

/-- `LoggerOpts::set_log_label`. -/
def LoggerOpts.set_log_label (self : LoggerOpts) (new_label : String) : LoggerOpts :=
  { self with log_label := new_label }

/-- `LoggerOpts::set_dt_format`. -/
def LoggerOpts.set_dt_format (self : LoggerOpts) (new_format : String) : LoggerOpts :=
  { self with dt_format := new_format }

/-- The `Logger` struct. -/
structure Logger where
  msg : String
  date_time : String
  dt_format : String
  log_label : String
  log_type : LogType
  use_dt : Bool
  use_label : Bool
deriving DecidableEq

/-- `Logger::new(opts)`: note `msg` is initialised to
`opts.log_file_name`, not to a formatted line. -/
def Logger.new (now_format : String → String) (opts : LoggerOpts) : Logger :=
  { date_time := now_format opts.dt_format
    msg := opts.log_file_name
    dt_format := opts.dt_format
    log_label := opts.log_label
    log_type := opts.log_type
    use_dt := opts.use_dt
    use_label := opts.use_label }

/-- `Logger::default()`: `LoggerOpts::new()` then `set_log_type("file")`
then the same field initialisation as `Logger::new`. -/
def Logger.default (fs : FileSystem) (now_format : String → String) : PanicOr Logger :=
  (LoggerOpts.new fs).bind fun opt =>
    (opt.set_log_type fs "file").map fun opts => Logger.new now_format opts

/-- The `fmt::Display` impl: `writeln!(formatter, ..., &self.msg)`, i.e.
the stored `msg` followed by a newline. -/
def Logger.display_string (self : Logger) : String := self.msg ++ "\n"

/-- `Logger::update_time`. -/
def Logger.update_time (now_format : String → String) (self : Logger) : Logger :=
  { self with date_time := now_format self.dt_format }

/-- `Logger::update_log_line`: `self.update_time()` then
`self.msg = format!(..., self.log_label, self.date_time, msg.0, msg.1)`
where the format string is bracket–label–bracket, `::`, bracket–
timestamp–bracket, ` -> `, the message, a newline, and the second tuple
component. -/
def Logger.update_log_line (now_format : String → String) (self : Logger)
    (msg : String × String) : Logger :=
  let s := self.update_time now_format
  { s with
    msg := "[" ++ s.log_label ++ "]::[" ++ s.date_time ++ "] -> " ++ msg.1 ++ "\n" ++ msg.2 }

/-- The two write targets a logging call can touch. -/
inductive Dest where
  | fileDest
  | consoleDest
deriving DecidableEq

/-- One `write_all` call: which sink, which bytes, and whether the OS
reported a failure (per the `fails` oracle).  The Rust code receives
this `io::Result` and discards it. -/
structure WriteAttempt where
  dest : Dest
  bytes : String
  failed : Bool
deriving DecidableEq

/-- Perform one `write_all` against the failure oracle. -/
def write_all (fails : Dest → Bool) (d : Dest) (bytes : String) : WriteAttempt :=
  { dest := d, bytes := bytes, failed := fails d }

/-- Errors a call could hand back to its caller. -/
inductive LogError where
  | ioError (failed : List Dest)
  | configError (field : String)
deriving DecidableEq

/-- `Logger::log_message(msg)`: takes `self` BY VALUE (the logger is
consumed), calls `update_log_line((msg, ""))`, then matches on
`log_type` and calls `write_all` on each owned sink, discarding every
`io::Result`.  In the `Both` arm the first pattern binder (named `file`
in the source) is the FIRST component of `Both`, which is the
`LogConsl`, so stdout is written first and the file second.  The
function returns `()`: the second component below is the error the call
reports to its caller, which is always `none`. -/
def Logger.log_message (now_format : String → String) (fails : Dest → Bool)
    (self : Logger) (msg : String) : List WriteAttempt × Option LogError :=
  let s := self.update_log_line now_format (msg, "")
  let msg_to_write := s.msg
  match s.log_type with
  | LogType.both _c _f =>
      ([write_all fails Dest.consoleDest msg_to_write,
        write_all fails Dest.fileDest msg_to_write], none)
  | LogType.file _f =>
      ([write_all fails Dest.fileDest msg_to_write], none)
  | LogType.console _c =>
      ([write_all fails Dest.consoleDest msg_to_write], none)

/-- `Logger::log_msg_and_error(msg, err)`: identical to `log_message`
except the line is rendered with `(msg, err)`. -/
def Logger.log_msg_and_error (now_format : String → String) (fails : Dest → Bool)
    (self : Logger) (msg : String) (err : String) : List WriteAttempt × Option LogError :=
  let s := self.update_log_line now_format (msg, err)
  let msg_to_write := s.msg
  match s.log_type with
  | LogType.both _c _f =>
      ([write_all fails Dest.consoleDest msg_to_write,
        write_all fails Dest.fileDest msg_to_write], none)
  | LogType.file _f =>
      ([write_all fails Dest.fileDest msg_to_write], none)
  | LogType.console _c =>
      ([write_all fails Dest.consoleDest msg_to_write], none)

/-! Concrete fixtures used to evaluate the embedded code on specific
inputs: a filesystem on which every file opens, one on which none does,
failure oracles, a clock fixed at 2024-01-01, and sample loggers. -/

/-- A filesystem on which every named file exists and opens. -/
def fsAll : FileSystem := fun _ => true

/-- A filesystem on which no named file exists. -/
def fsNone : FileSystem := fun _ => false

/-- Every write succeeds. -/
def failsNone : Dest → Bool := fun _ => false

/-- The write to the file sink fails; the write to stdout succeeds. -/
def failsFileOnly : Dest → Bool
  | Dest.fileDest => true
  | Dest.consoleDest => false

/-- The clock fixed at 2024-01-01: the pattern consisting of the year
directive renders as "2024"; any other pattern renders the full fixed
date-time. -/
def clockY : String → String := fun p =>
  if p = "%Y" then "2024" else "2024-01-01 00:00:00"

/-- The handle obtained by opening "llog.txt" for append on a
filesystem where it exists. -/
def llogFile : LogFile :=
  { out := { name := "llog.txt", opened_append := true, truncated := false } }

/-- A file-only logger with label "X" and pattern consisting of the
year directive. -/
def loggerX : Logger :=
  { msg := "llog.txt", date_time := "", dt_format := "%Y", log_label := "X",
    log_type := LogType.file llogFile, use_dt := true, use_label := true }

/-- A logger in `Both` mode with label "X" and the year-directive
pattern. -/
def loggerBoth : Logger :=
  { loggerX with log_type := LogType.both LogConsl.new llogFile }

/-- The default `LoggerOpts` value (what `LoggerOpts::new` yields on a
filesystem where "llog.txt" opens). -/
def optsD : LoggerOpts :=
  { log_file_name := "llog.txt", log_type := LogType.file llogFile,
    log_label := "LLOG", dt_format := "%Y-%m-%d %H:%M:%S",
    use_dt := true, use_label := true }

/-- Path metadata for a relative path that exists and is a directory. -/
def pathRel : String → PathInfo :=
  fun _ => { is_absolute := false, is_dir := true, path_exists := true }

/-- Path metadata for an absolute existing directory. -/
def pathAbsDir : String → PathInfo :=
  fun _ => { is_absolute := true, is_dir := true, path_exists := true }

/-- C1 counterexample: with label "X", pattern consisting of the year
directive, message "m" and the clock fixed at 2024-01-01, the rendered
line is NOT the bracketed-X, bracketed-2024, arrow, m string claimed:
the code's format string ends in a newline followed by the (empty)
secondary payload, so a trailing newline is appended after the
message. -/
theorem C1_counterexample :
    (loggerX.update_log_line clockY ("m", "")).msg ≠ "[X]::[2024] -> m" := by
  decide

/-- C1 (amended): for every label, timestamp pattern, message and clock,
rendering with no secondary payload produces the bracketed label,
the separator, the bracketed rendered timestamp, the arrow, the
message, and then a trailing newline (the newline that precedes the —
here empty — secondary payload in the format string). -/
theorem C1_amended (now_format : String → String) (L : Logger) (m : String) :
    (L.update_log_line now_format (m, "")).msg =
      "[" ++ L.log_label ++ "]::[" ++ now_format L.dt_format ++ "] -> " ++ m ++ "\n" := by
  simp [Logger.update_log_line, Logger.update_time, String.append_empty]

/-- C2 counterexample: on a logger in `Both` mode whose file write
fails, a write attempt did fail, yet the call reports no error to its
caller (the second component is `none`, mirroring the Rust functions
returning unit and discarding every write result) — it does not return
an IoError carrying the failed destinations as claimed. -/
theorem C2_counterexample :
    ((loggerBoth.log_message clockY failsFileOnly "m").1.any WriteAttempt.failed = true) ∧
    (loggerBoth.log_message clockY failsFileOnly "m").2 = none := by
  decide

/-- C2 (amended): for every logger in `Both` mode, every failure
oracle, clock and message, both writes are attempted independently —
the console and file attempts both appear, each carrying the line's
bytes and its own failure outcome, regardless of whether the other
failed — but the call never returns an error: write failures are
silently discarded. -/
theorem C2_amended (L : Logger) (c : LogConsl) (f : LogFile)
    (h : L.log_type = LogType.both c f)
    (now_format : String → String) (fails : Dest → Bool) (m : String) :
    (L.log_message now_format fails m).1 =
      [⟨Dest.consoleDest, (L.update_log_line now_format (m, "")).msg, fails Dest.consoleDest⟩,
       ⟨Dest.fileDest, (L.update_log_line now_format (m, "")).msg, fails Dest.fileDest⟩] ∧
    (L.log_message now_format fails m).2 = none := by
  simp [Logger.log_message, Logger.update_log_line, Logger.update_time, write_all, h]

/-- C2 witness: the amended theorem applied to the concrete `Both`
logger with a failing file sink. -/
theorem C2_witness :
    (loggerBoth.log_message clockY failsFileOnly "hello").1 =
      [⟨Dest.consoleDest, (loggerBoth.update_log_line clockY ("hello", "")).msg,
        failsFileOnly Dest.consoleDest⟩,
       ⟨Dest.fileDest, (loggerBoth.update_log_line clockY ("hello", "")).msg,
        failsFileOnly Dest.fileDest⟩] ∧
    (loggerBoth.log_message clockY failsFileOnly "hello").2 = none :=
  C2_amended loggerBoth LogConsl.new llogFile rfl clockY failsFileOnly "hello"

/-- C3 counterexample: on the invalid destination string "filesystem",
`set_log_type` panics (a process abort via the Rust `panic` macro), it
does not return a ConfigError to the caller as claimed. -/
theorem C3_counterexample :
    optsD.set_log_type fsAll "filesystem" = PanicOr.panicked "Invalid log type provided." := by
  decide

/-- C3 (amended): compared after uppercasing (case-insensitively), the
five valid strings select the corresponding variant — file, console, or
both — and every other string makes `set_log_type` panic (abort the
process) rather than return a ConfigError. -/
theorem C3_amended (o : LoggerOpts) (fs : FileSystem) (s : String)
    (hfs : fs "llog.txt" = true) :
    ((to_uppercase s = "FILE" ∨ to_uppercase s = "FILEONLY") →
      o.set_log_type fs s = PanicOr.ok { o with log_type := LogType.file llogFile }) ∧
    ((to_uppercase s = "CONSOLE" ∨ to_uppercase s = "CONSOLEONLY") →
      o.set_log_type fs s = PanicOr.ok { o with log_type := LogType.console LogConsl.new }) ∧
    (to_uppercase s = "BOTH" →
      o.set_log_type fs s = PanicOr.ok { o with log_type := LogType.both LogConsl.new llogFile }) ∧
    (to_uppercase s ∉ ["FILE", "FILEONLY", "CONSOLE", "CONSOLEONLY", "BOTH"] →
      o.set_log_type fs s = PanicOr.panicked "Invalid log type provided.") := by
  refine ⟨?_, ?_, ?_, ?_⟩
  · rintro (h | h) <;>
      simp [LoggerOpts.set_log_type, LogFile.new, OpenOptions.open_file, PanicOr.map, h, hfs,
        llogFile]
  · rintro (h | h) <;>
      simp [LoggerOpts.set_log_type, h]
  · intro h
    simp [LoggerOpts.set_log_type, LogFile.new, OpenOptions.open_file, PanicOr.map, h, hfs,
      llogFile]
  · intro h
    simp only [List.mem_cons, List.not_mem_nil, or_false, not_or] at h
    obtain ⟨h1, h2, h3, h4, h5⟩ := h
    simp [LoggerOpts.set_log_type, h1, h2, h3, h4, h5]

/-- C3 witness: the amended theorem applied to the mixed-case string
"CoNsOlE", selecting the console variant. -/
theorem C3_witness :
    optsD.set_log_type fsAll "CoNsOlE" =
      PanicOr.ok { optsD with log_type := LogType.console LogConsl.new } :=
  (C3_amended optsD fsAll "CoNsOlE" rfl).2.1 (Or.inl (by decide))

/-- C4: evaluating the code at the failing input: after
`set_logfile_name("my_log")` stores the new name, `set_log_type("file")`
still opens the file sink at the hardwired name "llog.txt" — the
configured `log_file_name` is "my_log" but the opened sink's file name
is "llog.txt", contradicting the claim (and `set_logfile_name`'s own
documentation). -/
theorem C4_code_bug :
    ((optsD.set_logfile_name "my_log").set_log_type fsAll "file").map
        (fun o => (o.log_file_name, o.log_type.opened_file_name)) =
      PanicOr.ok ("my_log", some "llog.txt") := by
  decide

/-- C5 counterexample: on a concrete `Both`-mode logger, the sequence
of attempted destinations is not file-then-console: in the source the
first component of `Both` is the console lock, and the match arm's
binder named `file` is bound to it, so stdout is written first. -/
theorem C5_counterexample :
    (loggerBoth.log_message clockY failsNone "m").1.map WriteAttempt.dest ≠
      [Dest.fileDest, Dest.consoleDest] := by
  decide

/-- C5 (amended): for every logger in `Both` mode, clock, failure
oracle and message, the composed line is written to the console sink
first and the file sink second (a fixed dispatch order), and the byte
content delivered to both sinks is identical. -/
theorem C5_amended (L : Logger) (c : LogConsl) (f : LogFile)
    (h : L.log_type = LogType.both c f)
    (now_format : String → String) (fails : Dest → Bool) (m : String) :
    ((L.log_message now_format fails m).1.map WriteAttempt.dest =
      [Dest.consoleDest, Dest.fileDest]) ∧
    ∃ b, (L.log_message now_format fails m).1.map WriteAttempt.bytes = [b, b] := by
  refine ⟨?_, ⟨(L.update_log_line now_format (m, "")).msg, ?_⟩⟩ <;>
    simp [Logger.log_message, Logger.update_log_line, Logger.update_time, write_all, h]

/-- C5 witness: the amended theorem applied to the concrete `Both`
logger. -/
theorem C5_witness :
    ((loggerBoth.log_message clockY failsNone "hi").1.map WriteAttempt.dest =
      [Dest.consoleDest, Dest.fileDest]) ∧
    ∃ b, (loggerBoth.log_message clockY failsNone "hi").1.map WriteAttempt.bytes = [b, b] :=
  C5_amended loggerBoth LogConsl.new llogFile rfl clockY failsNone "hi"

/-- C6 counterexample: at identical timestamps, logging message "m"
with context "e" does not produce the plain output of logging "m" with
a newline and "e" appended: the plain output already ends in the
newline, so appending another newline before "e" gives a different
string. -/
theorem C6_counterexample :
    (loggerBoth.log_msg_and_error clockY failsNone "m" "e").1.map WriteAttempt.bytes ≠
      (loggerBoth.log_message clockY failsNone "m").1.map (fun a => a.bytes ++ "\n" ++ "e") := by
  decide

/-- C6 (amended): for every logger, clock, failure oracle, message and
context, the bytes written by the context-logging operation equal the
bytes written by plain logging with just the context appended — the
separating newline is already the final character of the plain
output. -/
theorem C6_amended (L : Logger) (now_format : String → String) (fails : Dest → Bool)
    (m e : String) :
    (L.log_msg_and_error now_format fails m e).1.map WriteAttempt.bytes =
      (L.log_message now_format fails m).1.map (fun a => a.bytes ++ e) := by
  cases hL : L.log_type <;>
    simp [Logger.log_msg_and_error, Logger.log_message, Logger.update_log_line,
      Logger.update_time, write_all, hL, String.append_empty]

/-- C7 counterexample: opening the file sink on a filesystem where the
named file does not exist panics (the open, made without the create
flag, fails and `expect` aborts the process): the file is not created
and no IoError is returned to the caller. -/
theorem C7_counterexample :
    LogFile.new fsNone "llog.txt" = PanicOr.panicked "Failed to open log file" := by
  decide

/-- C7 (amended): `LogFile::new` opens the named file in append mode
without truncating; when the file exists the handle is returned, and
when it does not exist the sink is NOT created — the open fails and the
constructor panics (a process abort), rather than returning an IoError
to the caller. -/
theorem C7_amended (fs : FileSystem) (file_name : String) :
    (fs file_name = true →
      LogFile.new fs file_name =
        PanicOr.ok { out := { name := file_name, opened_append := true, truncated := false } }) ∧
    (fs file_name = false →
      LogFile.new fs file_name = PanicOr.panicked "Failed to open log file") := by
  constructor <;> intro h <;> simp [LogFile.new, OpenOptions.open_file, h]

/-- C7 witness: the amended theorem applied to a filesystem where the
file exists. -/
theorem C7_witness :
    LogFile.new fsAll "a.txt" =
      PanicOr.ok { out := { name := "a.txt", opened_append := true, truncated := false } } :=
  (C7_amended fsAll "a.txt").1 rfl

/-- C9 counterexample: on a relative path (even one that exists and is
a directory), `set_dest_dir` panics at the `is_absolute` assertion — a
process abort, not a ConfigError returned to the caller. -/
theorem C9_counterexample :
    optsD.set_dest_dir pathRel "logs/out" =
      PanicOr.panicked "assertion failed: dest.is_absolute()" := by
  decide

/-- C9 (amended): for an absolute path to an existing directory,
`set_dest_dir` succeeds and the working directory afterwards is that
path; for a relative path, a non-directory, or a non-existent path, it
panics (aborting the process) rather than returning a ConfigError. -/
theorem C9_amended (o : LoggerOpts) (path_info : String → PathInfo) (p : String) :
    ((path_info p).is_absolute = true → (path_info p).is_dir = true →
      (path_info p).path_exists = true →
      o.set_dest_dir path_info p = PanicOr.ok (o, p)) ∧
    (((path_info p).is_absolute = false ∨ (path_info p).is_dir = false ∨
        (path_info p).path_exists = false) →
      ∃ m, o.set_dest_dir path_info p = PanicOr.panicked m) := by
  constructor
  · intro h1 h2 h3
    simp [LoggerOpts.set_dest_dir, h1, h2, h3]
  · intro h
    unfold LoggerOpts.set_dest_dir
    rcases h with h | h | h
    · simp [h]
    · cases habs : (path_info p).is_absolute <;> simp [h, habs]
    · cases habs : (path_info p).is_absolute <;> cases hdir : (path_info p).is_dir <;>
        simp [h, habs, hdir]

/-- C9 witness: the amended theorem applied to an absolute existing
directory. -/
theorem C9_witness :
    optsD.set_dest_dir pathAbsDir "/var/log" = PanicOr.ok (optsD, "/var/log") :=
  (C9_amended optsD pathAbsDir "/var/log").1 rfl rfl rfl

/-- C10: immediately after construction (via `Logger::new` on any
options, or via `Logger::default` on a filesystem where "llog.txt"
opens) the logger's stored rendered-message state equals the configured
log file name, so formatting the logger for display prints the file
name followed by a newline. -/
theorem C10_initial_display (now_format : String → String) (opts : LoggerOpts)
    (fs : FileSystem) (hfs : fs "llog.txt" = true) :
    (Logger.new now_format opts).msg = opts.log_file_name ∧
    (Logger.new now_format opts).display_string = opts.log_file_name ++ "\n" ∧
    (Logger.default fs now_format).map Logger.msg = PanicOr.ok "llog.txt" ∧
    (Logger.default fs now_format).map Logger.display_string =
      PanicOr.ok ("llog.txt" ++ "\n") := by
  have hu : to_uppercase "file" = "FILE" := by decide
  refine ⟨rfl, rfl, ?_, ?_⟩ <;>
    simp [Logger.default, LoggerOpts.new, LoggerOpts.set_log_type, LogFile.new,
      OpenOptions.open_file, PanicOr.bind, PanicOr.map, Logger.new, Logger.display_string,
      hfs, hu]

/-- C10 witness: the theorem applied to the fixed clock, the default
options and the all-files-exist filesystem. -/
theorem C10_witness :
    (Logger.new clockY optsD).msg = optsD.log_file_name ∧
    (Logger.new clockY optsD).display_string = optsD.log_file_name ++ "\n" ∧
    (Logger.default fsAll clockY).map Logger.msg = PanicOr.ok "llog.txt" ∧
    (Logger.default fsAll clockY).map Logger.display_string =
      PanicOr.ok ("llog.txt" ++ "\n") :=
  C10_initial_display clockY optsD fsAll rfl

end LittleLogger
